import Mathlib

/-!
Shallow embedding of `iksm.py` (s3s token pipeline).

Module-level mutable globals (`NSOAPP_VERSION`, `S3S_VERSION`, `F_GEN_URL`,
`WEB_VIEW_VERSION`, and the `USE_OLD_NSOAPP_VER` flag) are modelled as an
explicit `VersionState` threaded through the functions.  Network I/O is
modelled by oracle arguments describing the outcome of each request, and
`sys.exit(1)` is modelled by the `error` side of `Except`.
-/

namespace Iksm

/-- `NSOAPP_VER_FALLBACK` constant of `iksm.py`. -/
def NSOAPP_VER_FALLBACK : String := "2.10.1"

/-- `WEB_VIEW_VER_FALLBACK` constant of `iksm.py`. -/
def WEB_VIEW_VER_FALLBACK : String := "10.0.0-88706e32"

/-- The module-level mutable globals of `iksm.py`.  The string `"unknown"`
is the sentinel the source uses for an unset value. -/
structure VersionState where
  use_old : Bool          -- USE_OLD_NSOAPP_VER
  nsoapp : String         -- NSOAPP_VERSION
  s3s : String            -- S3S_VERSION
  fgen : String           -- F_GEN_URL
  webview : String        -- WEB_VIEW_VERSION
  deriving DecidableEq, Repr

/-- `get_nsoapp_version()`.  `conf` is the outcome of the
`os.path.dirname(F_GEN_URL) + "/config"` lookup (the `nso_version` field if
the request and JSON parse succeed, `none` on any failure of that `try`
block), `store` the outcome of the Apple App Store scrape.  `Except.error`
is `sys.exit(1)`. -/
def get_nsoapp_version (st : VersionState) (conf store : Option String) :
    Except Unit (String × VersionState) :=
  if st.use_old then .ok (NSOAPP_VER_FALLBACK, st)
  else if st.nsoapp ≠ "unknown" then .ok (st.nsoapp, st)
  else if st.s3s = "unknown" ∨ st.fgen = "unknown" then .error ()
  else
    match conf with
    | some ver => .ok (ver, { st with nsoapp := ver })
    | none =>
      match store with
      | some ver => .ok (ver, { st with nsoapp := ver })
      | none => .ok (NSOAPP_VER_FALLBACK, st)

/-- Outcome of the network requests made by `get_web_view_ver()`:
whether the home-page GET raised `requests.exceptions.ConnectionError`,
whether it returned HTTP 200, whether the HTML contained a
`script[src*='static']` element, whether the `main.js` GET returned 200,
and the (`version`, `revision`) groups of the regex match when it
succeeds. -/
structure WebOutcome where
  home_conn_ok : Bool
  home_status_200 : Bool
  main_js_found : Bool
  js_status_200 : Bool
  regex_match : Option (String × String)
  deriving DecidableEq, Repr

/-- `get_web_view_ver()` (the `bhead`/`gtoken` arguments only affect request
headers, not control flow).  `Except.error` is `sys.exit(1)`. -/
def get_web_view_ver (st : VersionState) (o : WebOutcome) :
    Except Unit (String × VersionState) :=
  if st.webview ≠ "unknown" then .ok (st.webview, st)
  else if ¬ o.home_conn_ok then .error ()
  else if ¬ o.home_status_200 then .ok (WEB_VIEW_VER_FALLBACK, st)
  else if ¬ o.main_js_found then .ok (WEB_VIEW_VER_FALLBACK, st)
  else if ¬ o.js_status_200 then .ok (WEB_VIEW_VER_FALLBACK, st)
  else
    match o.regex_match with
    | none => .ok (WEB_VIEW_VER_FALLBACK, st)
    | some (version, revision) =>
      let ver_string := version ++ "-" ++ revision.take 8
      .ok (ver_string, { st with webview := ver_string })

/-! ## PKCE challenge construction in `log_in()`

Byte strings are `List Nat` of byte values; `61` is the ASCII code of the
padding character `=`. -/

/-- Value of one output byte of `base64.urlsafe_b64encode` for a 6-bit
group `n < 64`: `A`–`Z`, `a`–`z`, `0`–`9`, `-`, `_`. -/
def b64urlByte (n : Nat) : Nat :=
  if n < 26 then 65 + n
  else if n < 52 then 97 + (n - 26)
  else if n < 62 then 48 + (n - 52)
  else if n = 62 then 45
  else 95

/-- `base64.urlsafe_b64encode` on a byte string: 3-byte groups become four
alphabet bytes; a 2-byte tail becomes three alphabet bytes and one `=`;
a 1-byte tail becomes two alphabet bytes and two `=`. -/
def b64urlEncode : List Nat → List Nat
  | b1 :: b2 :: b3 :: rest =>
    b64urlByte (b1 / 4) :: b64urlByte ((b1 % 4) * 16 + b2 / 16) ::
    b64urlByte ((b2 % 16) * 4 + b3 / 64) :: b64urlByte (b3 % 64) ::
    b64urlEncode rest
  | [b1, b2] =>
    [b64urlByte (b1 / 4), b64urlByte ((b1 % 4) * 16 + b2 / 16),
     b64urlByte ((b2 % 16) * 4), 61]
  | [b1] =>
    [b64urlByte (b1 / 4), b64urlByte ((b1 % 4) * 16), 61, 61]
  | [] => []

/-- `.replace(b'=', b'')` on a byte string: delete every `=` byte. -/
def stripPad (bs : List Nat) : List Nat := bs.filter (· ≠ 61)

/-- `auth_code_verifier = base64.urlsafe_b64encode(os.urandom(32))` in
`log_in()`, as a function of the 32 random bytes. -/
def auth_code_verifier (rnd : List Nat) : List Nat := b64urlEncode rnd

/-- `auth_code_challenge` in `log_in()`: `urlsafe_b64encode` of the SHA-256
digest of the verifier with its `=` bytes removed.  The hash itself is a
library call (`hashlib.sha256`), passed here as the function `sha256`. -/
def auth_code_challenge (sha256 : List Nat → List Nat) (rnd : List Nat) :
    List Nat :=
  b64urlEncode (sha256 (stripPad (auth_code_verifier rnd)))

/-- The `session_token_code_challenge` value placed in the authorize-URL
body of `log_in()`: `auth_code_challenge.replace(b'=', b'')`. -/
def session_token_code_challenge (sha256 : List Nat → List Nat)
    (rnd : List Nat) : List Nat :=
  stripPad (auth_code_challenge sha256 rnd)

/-- Modelled from the spec: "base64url(SHA256(verifier with padding
stripped))" with padding stripped, as a function of the verifier alone —
the formula the transmitted challenge is claimed to equal. -/
def spec_challenge_of_verifier (sha256 : List Nat → List Nat)
    (verifier : List Nat) : List Nat :=
  stripPad (b64urlEncode (sha256 (stripPad verifier)))

/-! ## `call_f_api()` -/

/-- The fields the source reads from the JSON body of the f-API
response (`resp["f"]`, `resp["request_id"]`, `resp["timestamp"]`);
`none` means the field is absent (`KeyError`). -/
structure FFields where
  f : Option String
  request_id : Option String
  timestamp : Option String
  deriving DecidableEq, Repr

/-- An HTTP response obtained from `requests.post(f_gen_url, ...)`:
its status code, whether `api_response.text` is non-empty (truthy), and
the outcome of `json.loads(api_response.text)` (`none` = raises). -/
structure FApiResp where
  status : Nat
  text_nonempty : Bool
  parsed : Option FFields
  deriving DecidableEq, Repr

/-- The oracle for one `call_f_api` invocation: outcomes for the
`get_nsoapp_version()` call it makes, and the f-API POST itself
(`none` = transport failure, `api_response` never bound). -/
structure FCallOracle where
  conf : Option String
  store : Option String
  outcome : Option FApiResp
  deriving DecidableEq, Repr

/-- Which diagnostic `call_f_api`'s failure handler prints before
`sys.exit(1)`. -/
inductive FErrorReport where
  /-- the endpoint's error body, pretty-printed -/
  | errorBody : FErrorReport
  /-- `Error {api_response.status_code}.` -/
  | httpStatus : Nat → FErrorReport
  /-- `Couldn't connect to f generation API ({f_gen_url}).` -/
  | couldNotConnect : String → FErrorReport
  deriving DecidableEq, Repr

/-- `call_f_api(access_token, step, f_gen_url, user_id, coral_user_id)`.
Success returns the `(f, request_id, timestamp)` triple and the updated
version state.  Any exception in the main `try` (including `SystemExit`
from `get_nsoapp_version`, caught by the bare `except:`) reaches the
handler, which prints the error body only when the text is non-empty AND
re-parses as JSON (otherwise the inner `json.loads` raises again and the
could-not-connect message is printed), prints the status code when the
text is empty, and the could-not-connect message when `api_response` was
never bound. -/
def call_f_api (st : VersionState) (o : FCallOracle)
    (_access_token : String) (_step : Nat) (f_gen_url : String)
    (_user_id : String) (_coral_user_id : Option String) :
    Except FErrorReport ((String × String × String) × VersionState) :=
  match get_nsoapp_version st o.conf o.store with
  | .error _ => .error (.couldNotConnect f_gen_url)
  | .ok (_, st') =>
    match o.outcome with
    | none => .error (.couldNotConnect f_gen_url)
    | some resp =>
      match resp.parsed with
      | none =>
        if resp.text_nonempty then .error (.couldNotConnect f_gen_url)
        else .error (.httpStatus resp.status)
      | some fields =>
        match fields.f, fields.request_id, fields.timestamp with
        | some f, some u, some t => .ok ((f, u, t), st')
        | _, _, _ =>
          if resp.text_nonempty then .error .errorBody
          else .error (.httpStatus resp.status)

/-! ## `get_bullet()` -/

/-- Shape of `json.loads(r.text)` as far as `bullet_resp["bulletToken"]`
is concerned: a JSON object with or without the key, or a non-object
value (whose subscripting raises `TypeError`). -/
inductive BulletJson where
  | obj : Option String → BulletJson
  | nonObj : BulletJson
  deriving DecidableEq, Repr

/-- The response from `POST {SPLATNET3_URL}/api/bullet_tokens`: status
code and parse outcome of the body (`none` = `json.JSONDecodeError`). -/
structure BulletResp where
  status : Nat
  parsed : Option BulletJson
  deriving DecidableEq, Repr

/-- Why `get_bullet` calls `sys.exit(1)`. -/
inductive BulletErr where
  | connFail : BulletErr            -- exit inside get_web_view_ver
  | invalidGameWebToken : BulletErr -- 401
  | obsoleteVersion : BulletErr     -- 403
  | notRegistered : BulletErr       -- 204
  | extractError : BulletErr        -- bare except around bulletToken lookup
  deriving DecidableEq, Repr

/-- `get_bullet(web_service_token, app_user_agent, user_lang,
user_country)`.  It first calls `get_web_view_ver()` to build headers
(whose `sys.exit` propagates), then checks the status code, then parses:
`JSONDecodeError` or `TypeError` logs the raw body and returns `""`;
any other exception (a JSON object missing `bulletToken`, `KeyError`)
hits the bare `except:` and exits. -/
def get_bullet (st : VersionState) (wo : WebOutcome) (r : BulletResp) :
    Except BulletErr String :=
  match get_web_view_ver st wo with
  | .error _ => .error .connFail
  | .ok _ =>
    if r.status = 401 then .error .invalidGameWebToken
    else if r.status = 403 then .error .obsoleteVersion
    else if r.status = 204 then .error .notRegistered
    else
      match r.parsed with
      | none => .ok ""                  -- json.decoder.JSONDecodeError
      | some .nonObj => .ok ""          -- TypeError
      | some (.obj none) => .error .extractError  -- KeyError → bare except
      | some (.obj (some t)) => .ok t

/-! ## `get_gtoken()` -/

/-- The fields of the `api/token` response the source reads:
`id_response["access_token"]` (line 285) and `id_response["id_token"]`
(line 312); `none` = absent key. -/
structure IdResp where
  access_token : Option String
  id_token : Option String
  deriving DecidableEq, Repr

/-- The `users/me` profile fields the source reads. -/
structure UserInfo where
  nickname : String
  language : String
  country : String
  id : String
  birthday : String
  deriving DecidableEq, Repr

/-- What the source reads from a parsed `Account/Login` response:
`["result"]["webApiServerCredential"]["accessToken"]` and
`["result"]["user"]["id"]`; `none` = the lookup raises. -/
structure CoralResp where
  accessToken : Option String
  userId : Option String
  deriving DecidableEq, Repr

/-- What the source reads from a parsed `Game/GetWebServiceToken`
response: `["result"]["accessToken"]`. -/
structure WsResp where
  accessToken : Option String
  deriving DecidableEq, Repr

/-- Observable events of a `get_gtoken` run: a `call_f_api` invocation
that returned a triple (with its `hash_method` step), an `Account/Login`
POST, and a `Game/GetWebServiceToken` POST, each recorded with the
attestation triple `{f, requestId, timestamp}` its body carries. -/
inductive GEvent where
  | fapi : Nat → String → String → String → GEvent
  | coralPost : String → String → String → GEvent
  | wsPost : String → String → String → GEvent
  deriving DecidableEq, Repr

/-- The step of an `fapi` event, `none` for the POST events. -/
def GEvent.fapiStep : GEvent → Option Nat
  | .fapi s _ _ _ => some s
  | _ => none

/-- Whether an event is an `Account/Login` POST. -/
def GEvent.isCoralPost : GEvent → Bool
  | .coralPost _ _ _ => true
  | _ => false

/-- Network oracle for one `get_gtoken` run, in the order the source
issues requests: `get_nsoapp_version` lookups, `api/token`, `users/me`
(`none` = the body fails `json.loads`; field access is modelled as
present), the first f-API call, the first `Account/Login` response, the
retry f-API call and `Account/Login` response, the step-2 f-API call,
the two `Game/GetWebServiceToken` responses and the f-API call between
them. -/
structure GtokenNet where
  conf0 : Option String
  store0 : Option String
  id_resp : Option IdResp
  user_info : Option UserInfo
  fcall1 : FCallOracle
  coral1 : Option CoralResp
  fcall_retry : FCallOracle
  coral2 : Option CoralResp
  fcall2 : FCallOracle
  ws1 : Option WsResp
  fcall_ws : FCallOracle
  ws2 : Option WsResp
  deriving DecidableEq, Repr

/-- Which `sys.exit(1)` a `get_gtoken` run hits. -/
inductive GgFatal where
  | versionFail : GgFatal       -- inside get_nsoapp_version
  | tokenNonJson : GgFatal      -- api/token body not JSON
  | invalidAuth : GgFatal       -- id_response lacks access_token
  | userMeNonJson : GgFatal     -- users/me body not JSON
  | step1AttestFail : GgFatal   -- id_token missing or first call_f_api exits
  | coralNonJson : GgFatal      -- Account/Login body not JSON
  | coralRetryFail : GgFatal    -- inner except of the coral retry
  | step2AttestFail : GgFatal   -- call_f_api at line 373 exits
  | wsNonJson : GgFatal         -- GetWebServiceToken body not JSON
  | wsRetryFail : GgFatal       -- inner except of the web-service retry
  deriving DecidableEq, Repr

/-- Lines 376–422 of `get_gtoken`: the `Game/GetWebServiceToken` request
with the current `{f, requestId, timestamp}` triple, and its
retry-once-then-fatal handling (the retry regenerates the attestation at
step 2 with the coral user id). -/
def get_gtoken_web_service (st : VersionState) (net : GtokenNet)
    (f_gen_url : String) (ui : UserInfo)
    (access_token coral_user_id : String) (tr : String × String × String)
    (ev : List GEvent) :
    Except GgFatal (String × String × String × String) × List GEvent :=
  let ev1 := ev ++ [.wsPost tr.1 tr.2.1 tr.2.2]
  match net.ws1 with
  | none => (.error .wsNonJson, ev1)
  | some w1 =>
    match w1.accessToken with
    | some wst => (.ok (wst, ui.nickname, ui.language, ui.country), ev1)
    | none =>
      -- retry once if 9403/9599 error from nintendo
      match call_f_api st net.fcall_ws access_token 2 f_gen_url ui.id
          (some coral_user_id) with
      | .error _ => (.error .wsRetryFail, ev1)
      | .ok ((f4, u4, t4), _) =>
        let ev2 := ev1 ++ [.fapi 2 f4 u4 t4, .wsPost f4 u4 t4]
        match net.ws2 with
        | none => (.error .wsRetryFail, ev2)
        | some w2 =>
          match w2.accessToken with
          | some wst => (.ok (wst, ui.nickname, ui.language, ui.country), ev2)
          | none => (.error .wsRetryFail, ev2)

/-- `get_gtoken(f_gen_url, session_token, ver)`.  Returns the result
(`Except.error` = `sys.exit(1)`) together with the trace of attestation
calls and signed POSTs.  Mirrors the source's control flow, in
particular: the `call_f_api(..., 2, ...)` of line 373 sits inside the
`except:` block of the coral-login lookup, so on the first-attempt
success path the triple from the initial step-1 call is still in
`body["parameter"]` when `Game/GetWebServiceToken` is posted; and in the
retry block, `access_token` is unbound (NameError) when the first
coral-login response lacked `webApiServerCredential.accessToken`. -/
def get_gtoken (st0 : VersionState) (net : GtokenNet)
    (f_gen_url _session_token ver : String) :
    Except GgFatal (String × String × String × String) × List GEvent :=
  let st1 := { st0 with s3s := ver, fgen := f_gen_url }
  match get_nsoapp_version st1 net.conf0 net.store0 with
  | .error _ => (.error .versionFail, [])
  | .ok (_, st2) =>
    match net.id_resp with
    | none => (.error .tokenNonJson, [])
    | some idr =>
      match idr.access_token with
      | none => (.error .invalidAuth, [])
      | some _ =>
        match net.user_info with
        | none => (.error .userMeNonJson, [])
        | some ui =>
          match idr.id_token with
          | none => (.error .step1AttestFail, [])
          | some id_token =>
            match call_f_api st2 net.fcall1 id_token 1 f_gen_url ui.id
                none with
            | .error _ => (.error .step1AttestFail, [])
            | .ok ((f1, u1, t1), st3) =>
              let ev0 : List GEvent :=
                [.fapi 1 f1 u1 t1, .coralPost f1 u1 t1]
              match net.coral1 with
              | none => (.error .coralNonJson, ev0)
              | some c1 =>
                match c1.accessToken, c1.userId with
                | some at1, some uid1 =>
                  -- success on the first attempt: line 373 (inside the
                  -- except block) does not run, and the step-1 triple
                  -- (f1, u1, t1) is what the web-service request carries
                  get_gtoken_web_service st3 net f_gen_url ui at1 uid1
                    (f1, u1, t1) ev0
                | oat, _ =>
                  -- bare except: retry once if 9403/9599 error
                  match oat with
                  | none =>
                    -- NameError on the unbound `access_token` in
                    -- `call_f_api(access_token, 1, ...)`, caught by the
                    -- inner except → print & exit; no request is made
                    (.error .coralRetryFail, ev0)
                  | some at0 =>
                    match call_f_api st3 net.fcall_retry at0 1 f_gen_url
                        ui.id none with
                    | .error _ => (.error .coralRetryFail, ev0)
                    | .ok ((f2, u2, t2), st4) =>
                      let ev1 := ev0 ++ [.fapi 1 f2 u2 t2,
                        .coralPost f2 u2 t2]
                      match net.coral2 with
                      | none => (.error .coralRetryFail, ev1)
                      | some c2 =>
                        match c2.accessToken, c2.userId with
                        | some at2, some uid2 =>
                          -- line 373: fresh step-2 attestation, reached
                          -- only through the retry path
                          match call_f_api st4 net.fcall2 at2 2 f_gen_url
                              ui.id (some uid2) with
                          | .error _ => (.error .step2AttestFail, ev1)
                          | .ok ((f3, u3, t3), st5) =>
                            get_gtoken_web_service st5 net f_gen_url ui
                              at2 uid2 (f3, u3, t3)
                              (ev1 ++ [.fapi 2 f3 u3 t3])
                        | _, _ => (.error .coralRetryFail, ev1)

/-! ## `enter_tokens()` -/

/-- One pass of the gtoken `while` loop condition of `enter_tokens()`:
an entered gtoken is kept exactly when its length is 926. -/
def gtoken_loop : List (List Char) → Option (List Char)
  | [] => none
  | s :: rest => if s.length = 926 then some s else gtoken_loop rest

/-- How the bulletToken `while` loop of `enter_tokens()` treats one entered
value: length 124 leaves the loop at once; length 123 with no trailing `=`
has `=` appended (after which the loop condition passes); everything else
re-prompts. -/
def bullet_process (s : List Char) : Option (List Char) :=
  if s.length = 124 then some s
  else if s.length = 123 ∧ s.getLast? ≠ some '=' then some (s ++ ['='])
  else none

/-- The bulletToken `while` loop of `enter_tokens()` over the stream of
entered values. -/
def bullet_loop : List (List Char) → Option (List Char)
  | [] => none
  | s :: rest =>
    match bullet_process s with
    | some t => some t
    | none => bullet_loop rest

/-- `enter_tokens()`: prompts for a gtoken until accepted, then for a
bulletToken until accepted. -/
def enter_tokens (gtoken_inputs bullet_inputs : List (List Char)) :
    Option (List Char × List Char) :=
  match gtoken_loop gtoken_inputs with
  | none => none
  | some g =>
    match bullet_loop bullet_inputs with
    | none => none
    | some b => some (g, b)

/-! ## Concrete scenarios -/

/-- The globals at interpreter start: flag off, every global `"unknown"`. -/
def st_fresh : VersionState :=
  ⟨false, "unknown", "unknown", "unknown", "unknown"⟩

/-- A run of `get_gtoken` in which every request succeeds at the first
attempt: the config endpoint reports the NSO version, `api/token` and
`users/me` parse, the step-1 f call returns `(F1, U1, T1)`, the first
`Account/Login` response carries both the coral access token and user
id, and the first `Game/GetWebServiceToken` response carries the web
service token.  The retry oracles are never reached. -/
def happy_net : GtokenNet :=
  { conf0 := some "2.27.0", store0 := none,
    id_resp := some ⟨some "AT", some "IDT"⟩,
    user_info := some ⟨"nick", "en-US", "US", "na-id", "2000-01-01"⟩,
    fcall1 := ⟨none, none, some ⟨200, true, some ⟨some "F1", some "U1", some "T1"⟩⟩⟩,
    coral1 := some ⟨some "CORAL", some "1234"⟩,
    fcall_retry := ⟨none, none, none⟩,
    coral2 := none,
    fcall2 := ⟨none, none, none⟩,
    ws1 := some ⟨some "WST"⟩,
    fcall_ws := ⟨none, none, none⟩,
    ws2 := none }

/-- A run of `get_gtoken` in which the first `Account/Login` response is
a credential rejection (a `9403`-style error body: valid JSON with no
`result` key, so neither the access token nor the user id can be read),
while everything a retry would need is available: the retry f-API oracle
and the second coral response would both succeed. -/
def rejected_net : GtokenNet :=
  { conf0 := some "2.27.0", store0 := none,
    id_resp := some ⟨some "AT", some "IDT"⟩,
    user_info := some ⟨"nick", "en-US", "US", "na-id", "2000-01-01"⟩,
    fcall1 := ⟨none, none, some ⟨200, true, some ⟨some "F1", some "U1", some "T1"⟩⟩⟩,
    coral1 := some ⟨none, none⟩,
    fcall_retry := ⟨none, none, some ⟨200, true, some ⟨some "F2", some "U2", some "T2"⟩⟩⟩,
    coral2 := some ⟨some "CORAL2", some "5678"⟩,
    fcall2 := ⟨none, none, some ⟨200, true, some ⟨some "F3", some "U3", some "T3"⟩⟩⟩,
    ws1 := some ⟨some "WST"⟩,
    fcall_ws := ⟨none, none, none⟩,
    ws2 := none }

/-! ## Theorems -/

/-- No output byte of the base64url alphabet is the padding byte `=`. -/
theorem b64urlByte_ne61 (n : Nat) : b64urlByte n ≠ 61 := by
  unfold b64urlByte
  repeat' split
  all_goals omega

/-- `stripPad` keeps a leading byte that is not `=`. -/
theorem stripPad_cons_ne (x : Nat) (l : List Nat) (h : x ≠ 61) :
    stripPad (x :: l) = x :: stripPad l := by
  simp [stripPad, List.filter_cons, h]

/-- Unfolding of the gtoken prompt loop on one entered value. -/
theorem gtoken_loop_cons (s : List Char) (rest : List (List Char)) :
    gtoken_loop (s :: rest)
      = if s.length = 926 then some s else gtoken_loop rest := rfl

/-- Unfolding of the bulletToken prompt loop on one entered value. -/
theorem bullet_loop_cons (s : List Char) (rest : List (List Char)) :
    bullet_loop (s :: rest)
      = match bullet_process s with
        | some t => some t
        | none => bullet_loop rest := rfl

/-- In a base64url encoding the only `=` bytes are trailing padding:
removing every `=` removes a suffix of at most two padding bytes. -/
theorem stripPad_b64urlEncode (bs : List Nat) :
    ∃ k, k ≤ 2 ∧
      b64urlEncode bs = stripPad (b64urlEncode bs) ++ List.replicate k 61 := by
  induction bs using b64urlEncode.induct with
  | case1 b1 b2 b3 rest ih =>
    obtain ⟨k, hk, hrest⟩ := ih
    refine ⟨k, hk, ?_⟩
    simp only [b64urlEncode]
    rw [stripPad_cons_ne _ _ (b64urlByte_ne61 _),
      stripPad_cons_ne _ _ (b64urlByte_ne61 _),
      stripPad_cons_ne _ _ (b64urlByte_ne61 _),
      stripPad_cons_ne _ _ (b64urlByte_ne61 _)]
    simp only [List.cons_append]
    rw [← hrest]
  | case2 b1 b2 =>
    exact ⟨1, by omega, by simp [b64urlEncode, stripPad, b64urlByte_ne61]⟩
  | case3 b1 =>
    exact ⟨2, by omega, by simp [b64urlEncode, stripPad, b64urlByte_ne61,
      List.replicate]⟩
  | case4 =>
    exact ⟨0, by omega, by simp [b64urlEncode, stripPad]⟩

/-- C3: for every randomly generated verifier, the
`session_token_code_challenge` placed in the authorize URL equals
base64url(SHA256(verifier with `=` padding stripped)) with its own `=`
padding stripped, so the transmitted challenge contains no padding
bytes, and (since only trailing padding was removed) it is re-derivable
from the verifier alone. -/
theorem log_in_challenge_ok (sha256 : List Nat → List Nat)
    (rnd : List Nat) :
    session_token_code_challenge sha256 rnd
      = spec_challenge_of_verifier sha256 (auth_code_verifier rnd) ∧
    (∀ b ∈ session_token_code_challenge sha256 rnd, b ≠ 61) ∧
    ∃ k, k ≤ 2 ∧ auth_code_challenge sha256 rnd
      = session_token_code_challenge sha256 rnd ++ List.replicate k 61 := by
  refine ⟨rfl, ?_, ?_⟩
  · intro b hb
    simp only [session_token_code_challenge, stripPad, List.mem_filter,
      decide_eq_true_eq] at hb
    exact hb.2
  · exact stripPad_b64urlEncode _

/-- Witness for C3 at a concrete hash function and random bytes. -/
theorem log_in_challenge_ok_witness :
    (61 : Nat) ∉
      session_token_code_challenge (fun _ => List.replicate 32 0)
        (List.replicate 32 0) :=
  fun h => (log_in_challenge_ok _ _).2.1 61 h rfl

/-- C7: the gtoken prompt of `enter_tokens` keeps an entered value
exactly when it has 926 characters and re-prompts otherwise; the
bulletToken prompt keeps a 124-character value as entered, extends a
123-character value not ending in `=` with `=` to 124 characters and
keeps it, and re-prompts on every other entered value. -/
theorem enter_tokens_lengths (s : List Char) (rest : List (List Char)) :
    (s.length = 926 → gtoken_loop (s :: rest) = some s) ∧
    (s.length ≠ 926 → gtoken_loop (s :: rest) = gtoken_loop rest) ∧
    (s.length = 124 → bullet_loop (s :: rest) = some s) ∧
    (s.length = 123 → s.getLast? ≠ some '=' →
      bullet_loop (s :: rest) = some (s ++ ['=']) ∧
      (s ++ ['=']).length = 124) ∧
    (s.length ≠ 124 → ¬(s.length = 123 ∧ s.getLast? ≠ some '=') →
      bullet_loop (s :: rest) = bullet_loop rest) := by
  refine ⟨fun h => ?_, fun h => ?_, fun h => ?_, fun h h2 => ?_,
    fun h h2 => ?_⟩
  · simp [gtoken_loop, h]
  · simp [gtoken_loop, h]
  · simp [bullet_loop, bullet_process, h]
  · constructor
    · have hp : bullet_process s = some (s ++ ['=']) := by
        unfold bullet_process
        rw [if_neg (by omega), if_pos ⟨h, h2⟩]
      rw [bullet_loop_cons, hp]
    · simp [h]
  · have hp : bullet_process s = none := by
      unfold bullet_process
      rw [if_neg h, if_neg h2]
    rw [bullet_loop_cons, hp]

set_option maxRecDepth 4000 in
/-- Witness for C7: a 926-char gtoken is kept, a 925-char one
re-prompted; a 124-char bulletToken is kept, a 123-char one without a
trailing `=` is extended and kept, a 122-char one re-prompted. -/
theorem enter_tokens_lengths_witness :
    gtoken_loop [List.replicate 926 'a'] = some (List.replicate 926 'a') ∧
    gtoken_loop [List.replicate 925 'a'] = none ∧
    bullet_loop [List.replicate 124 'b'] = some (List.replicate 124 'b') ∧
    bullet_loop [List.replicate 123 'b']
      = some (List.replicate 123 'b' ++ ['=']) ∧
    bullet_loop [List.replicate 122 'b'] = none := by
  refine ⟨(enter_tokens_lengths _ _).1 (by decide),
    ((enter_tokens_lengths _ _).2.1 (by decide)).trans rfl,
    (enter_tokens_lengths _ _).2.2.1 (by decide),
    ((enter_tokens_lengths _ _).2.2.2.1 (by decide) (by decide)).1,
    ((enter_tokens_lengths _ _).2.2.2.2 (by decide) (by decide)).trans rfl⟩

/-- C9: a 123-character bulletToken whose last character is already `=`
is not auto-corrected: the loop re-prompts instead of accepting it. -/
theorem bullet_123_with_pad_rejected (s : List Char)
    (rest : List (List Char)) (h1 : s.length = 123)
    (h2 : s.getLast? = some '=') :
    bullet_loop (s :: rest) = bullet_loop rest := by
  have hp : bullet_process s = none := by
    unfold bullet_process
    rw [if_neg (by omega), if_neg (fun hc => hc.2 h2)]
  rw [bullet_loop_cons, hp]

set_option maxRecDepth 4000 in
/-- Witness for C9: a concrete 123-character token ending in `=` is
rejected outright. -/
theorem bullet_123_with_pad_rejected_witness :
    bullet_loop [List.replicate 122 'a' ++ ['=']] = none :=
  (bullet_123_with_pad_rejected _ [] (by decide) (by decide)).trans rfl

/-- C10: with `USE_OLD_NSOAPP_VER` true, `get_nsoapp_version` returns
the static fallback `"2.10.1"` with the globals untouched, for every
cache state and every network outcome (so neither the cache nor the
network is consulted, and nothing is written). -/
theorem get_nsoapp_version_use_old (st : VersionState)
    (conf store : Option String) (h : st.use_old = true) :
    get_nsoapp_version st conf store = .ok ("2.10.1", st) := by
  simp [get_nsoapp_version, h, NSOAPP_VER_FALLBACK]

/-- Witness for C10 at a concrete state whose cache already holds a
different value. -/
theorem get_nsoapp_version_use_old_witness :
    get_nsoapp_version ⟨true, "2.27.0", "0.6.6", "url", "unknown"⟩
      (some "3.0.0") (some "3.0.0") = .ok ("2.10.1",
        ⟨true, "2.27.0", "0.6.6", "url", "unknown"⟩) :=
  get_nsoapp_version_use_old _ _ _ rfl

/-- C4 counterexample: in a fresh process state (flag off, no cache,
s3s version and f-generation URL not yet set), `get_nsoapp_version`
terminates the process (`sys.exit(1)`) even though both lookups would
succeed — it does not return a version string. -/
theorem get_nsoapp_version_exits_counterexample :
    get_nsoapp_version ⟨false, "unknown", "unknown", "unknown", "unknown"⟩
      (some "2.27.0") (some "2.27.0") = .error () := by
  rfl

/-- C4 amended: provided the old-version flag is set, or the cache is
already set, or both the s3s version and the f-generation URL are known,
`get_nsoapp_version` returns a version string for every outcome of the
config-endpoint and app-store lookups (including both failing), and a
result obtained from a successful lookup is written to the cache. -/
theorem get_nsoapp_version_total (st : VersionState)
    (conf store : Option String)
    (h : st.use_old = true ∨ st.nsoapp ≠ "unknown" ∨
      (st.s3s ≠ "unknown" ∧ st.fgen ≠ "unknown")) :
    ∃ v st', get_nsoapp_version st conf store = .ok (v, st') ∧
      (st.use_old = false → st.nsoapp = "unknown" →
        conf.isSome ∨ store.isSome → st'.nsoapp = v) := by
  unfold get_nsoapp_version
  by_cases hu : st.use_old = true
  · exact ⟨NSOAPP_VER_FALLBACK, st, by simp [hu],
      fun hf => by rw [hu] at hf; cases hf⟩
  · have hu' : st.use_old = false := by
      cases hv : st.use_old
      · rfl
      · exact absurd hv hu
    by_cases hn : st.nsoapp = "unknown"
    · have hsf : ¬(st.s3s = "unknown" ∨ st.fgen = "unknown") := by
        rcases h with h | h | ⟨h3, h4⟩
        · exact absurd h hu
        · exact absurd hn h
        · rintro (h5 | h5)
          · exact h3 h5
          · exact h4 h5
      cases conf with
      | some c =>
        exact ⟨c, { st with nsoapp := c }, by simp [hu', hn, hsf],
          fun _ _ _ => rfl⟩
      | none =>
        cases store with
        | some s =>
          exact ⟨s, { st with nsoapp := s }, by simp [hu', hn, hsf],
            fun _ _ _ => rfl⟩
        | none =>
          exact ⟨NSOAPP_VER_FALLBACK, st, by simp [hu', hn, hsf],
            fun _ _ hcs => by simp at hcs⟩
    · exact ⟨st.nsoapp, st, by simp [hu', hn],
        fun _ hn' => absurd hn' hn⟩

/-- Witness for the amended C4 at a concrete state with the s3s version
and f-generation URL set and a successful config lookup. -/
theorem get_nsoapp_version_total_witness :
    ∃ v st', get_nsoapp_version
      ⟨false, "unknown", "0.6.6", "https://api.imink.app/f", "unknown"⟩
      (some "2.27.0") none = .ok (v, st') := by
  obtain ⟨v, st', hok, _⟩ := get_nsoapp_version_total
    ⟨false, "unknown", "0.6.6", "https://api.imink.app/f", "unknown"⟩
    (some "2.27.0") none (by simp)
  exact ⟨v, st', hok⟩

/-- C5 counterexample: a first call whose lookups both fail returns the
fallback `"2.10.1"` without caching it, and a second call in the same
process state, with the config lookup now succeeding, returns a
different value — the cache-once law as claimed does not hold. -/
theorem version_cache_once_counterexample :
    get_nsoapp_version
      ⟨false, "unknown", "0.6.6", "https://api.imink.app/f", "unknown"⟩
      none none = .ok ("2.10.1",
        ⟨false, "unknown", "0.6.6", "https://api.imink.app/f", "unknown"⟩) ∧
    get_nsoapp_version
      ⟨false, "unknown", "0.6.6", "https://api.imink.app/f", "unknown"⟩
      (some "2.27.0") none = .ok ("2.27.0",
        ⟨false, "2.27.0", "0.6.6", "https://api.imink.app/f", "unknown"⟩) ∧
    ("2.27.0" : String) ≠ "2.10.1" := by
  exact ⟨rfl, rfl, by decide⟩

/-- C5 amended: the cache-once law holds from the moment a call leaves
the cache set: once a call of `get_nsoapp_version` (resp.
`get_web_view_ver`) returns with the corresponding cache no longer
`"unknown"`, every later call returns the same value and leaves the
state unchanged, regardless of its network outcomes.  A call that
returns a fallback does not cache it, and a later call may differ. -/
theorem version_cache_persists :
    (∀ (st : VersionState) (conf store : Option String) (v : String)
      (st' : VersionState),
      get_nsoapp_version st conf store = .ok (v, st') →
      st'.nsoapp ≠ "unknown" →
      ∀ conf' store', get_nsoapp_version st' conf' store' = .ok (v, st')) ∧
    (∀ (st : VersionState) (o : WebOutcome) (v : String)
      (st' : VersionState),
      get_web_view_ver st o = .ok (v, st') → st'.webview ≠ "unknown" →
      ∀ o', get_web_view_ver st' o' = .ok (v, st')) := by
  constructor
  · intro st conf store v st' hok hn conf' store'
    unfold get_nsoapp_version at hok ⊢
    by_cases hu : st.use_old = true
    · simp [hu] at hok
      obtain ⟨hv, hst⟩ := hok
      subst hst
      simp [hu, hv]
    · have hu' : st.use_old = false := by
        cases hv : st.use_old
        · rfl
        · exact absurd hv hu
      by_cases hn0 : st.nsoapp = "unknown"
      · by_cases hsf : st.s3s = "unknown" ∨ st.fgen = "unknown"
        · simp [hu', hn0, hsf] at hok
        · cases conf with
          | some c =>
            simp [hu', hn0, hsf] at hok
            obtain ⟨hv, hst⟩ := hok
            subst hst
            have hn' : c ≠ "unknown" := by simpa using hn
            simp [hu', hn', ← hv]
          | none =>
            cases store with
            | some s =>
              simp [hu', hn0, hsf] at hok
              obtain ⟨hv, hst⟩ := hok
              subst hst
              have hn' : s ≠ "unknown" := by simpa using hn
              simp [hu', hn', ← hv]
            | none =>
              simp [hu', hn0, hsf] at hok
              obtain ⟨hv, hst⟩ := hok
              subst hst
              exact absurd hn0 hn
      · simp [hu', hn0] at hok
        obtain ⟨hv, hst⟩ := hok
        subst hst
        have hn' : v ≠ "unknown" := by rw [← hv]; exact hn0
        simp [hu', hv, hn']
  · intro st o v st' hok hn o'
    unfold get_web_view_ver at hok ⊢
    by_cases hw : st.webview = "unknown"
    · by_cases hc : o.home_conn_ok
      · by_cases h200 : o.home_status_200
        · by_cases hjs : o.main_js_found
          · by_cases hjss : o.js_status_200
            · cases hm : o.regex_match with
              | none =>
                simp [hw, hc, h200, hjs, hjss, hm] at hok
                obtain ⟨hv, hst⟩ := hok
                subst hst
                exact absurd hw hn
              | some pr =>
                simp [hw, hc, h200, hjs, hjss, hm] at hok
                obtain ⟨hv, hst⟩ := hok
                subst hst
                have hn' : pr.1 ++ "-" ++ pr.2.take 8 ≠ "unknown" := by
                  simpa using hn
                simp [hn', ← hv]
            · simp [hw, hc, h200, hjs, hjss] at hok
              obtain ⟨hv, hst⟩ := hok
              subst hst
              exact absurd hw hn
          · simp [hw, hc, h200, hjs] at hok
            obtain ⟨hv, hst⟩ := hok
            subst hst
            exact absurd hw hn
        · simp [hw, hc, h200] at hok
          obtain ⟨hv, hst⟩ := hok
          subst hst
          exact absurd hw hn
      · simp [hw, hc] at hok
    · simp [hw] at hok
      obtain ⟨hv, hst⟩ := hok
      subst hst
      simp [hw, hv]
      intro hcontra
      exact absurd (hv.trans hcontra) hw

/-- Witness for the amended C5: both persistence laws applied at
concrete cached states and fresh network outcomes. -/
theorem version_cache_persists_witness :
    get_nsoapp_version ⟨false, "2.27.0", "unknown", "unknown", "unknown"⟩
      none (some "9.9.9")
      = .ok ("2.27.0",
        ⟨false, "2.27.0", "unknown", "unknown", "unknown"⟩) ∧
    get_web_view_ver
      ⟨false, "unknown", "unknown", "unknown", "6.0.0-abcdef01"⟩
      ⟨false, false, false, false, none⟩
      = .ok ("6.0.0-abcdef01",
        ⟨false, "unknown", "unknown", "unknown", "6.0.0-abcdef01"⟩) :=
  ⟨version_cache_persists.1
      ⟨false, "2.27.0", "unknown", "unknown", "unknown"⟩ none none "2.27.0"
      ⟨false, "2.27.0", "unknown", "unknown", "unknown"⟩ rfl (by decide)
      none (some "9.9.9"),
    version_cache_persists.2
      ⟨false, "unknown", "unknown", "unknown", "6.0.0-abcdef01"⟩
      ⟨true, true, true, true, none⟩ "6.0.0-abcdef01"
      ⟨false, "unknown", "unknown", "unknown", "6.0.0-abcdef01"⟩ rfl
      (by decide) ⟨false, false, false, false, none⟩⟩

/-- C6 counterexample: a 200 response whose body is valid JSON but not
an object (e.g. the body `null`) raises `TypeError` while extracting
`bulletToken`; the code logs and returns the empty string instead of
terminating fatally, although the claim reserves the non-fatal path for
bodies that fail JSON parsing. -/
theorem get_bullet_typeerror_counterexample :
    get_bullet ⟨false, "unknown", "unknown", "unknown", "10.0.0-88706e32"⟩
      ⟨true, true, true, true, none⟩ ⟨200, some .nonObj⟩ = .ok "" := by
  rfl

/-- C6 amended: assuming the web-view-version lookup does not exit,
`get_bullet` maps 401 to a fatal invalid-game-web-token exit, 403 to a
fatal obsolete-version exit, 204 to a fatal never-played-online exit; on
any other status it returns the parsed `bulletToken` when the body is a
JSON object containing it, returns the empty string after logging when
the body fails JSON parsing **or parses to a non-object value
(`TypeError`)**, and terminates fatally only on the remaining extraction
failure, a JSON object without the key. -/
theorem get_bullet_status_mapping (st : VersionState) (wo : WebOutcome)
    (p : String × VersionState)
    (hv : get_web_view_ver st wo = .ok p) :
    (∀ r : BulletResp, r.status = 401 →
      get_bullet st wo r = .error .invalidGameWebToken) ∧
    (∀ r : BulletResp, r.status ≠ 401 → r.status = 403 →
      get_bullet st wo r = .error .obsoleteVersion) ∧
    (∀ r : BulletResp, r.status ≠ 401 → r.status ≠ 403 → r.status = 204 →
      get_bullet st wo r = .error .notRegistered) ∧
    (∀ (r : BulletResp) (t : String), r.status ≠ 401 → r.status ≠ 403 →
      r.status ≠ 204 → r.parsed = some (.obj (some t)) →
      get_bullet st wo r = .ok t) ∧
    (∀ r : BulletResp, r.status ≠ 401 → r.status ≠ 403 → r.status ≠ 204 →
      (r.parsed = none ∨ r.parsed = some .nonObj) →
      get_bullet st wo r = .ok "") ∧
    (∀ r : BulletResp, r.status ≠ 401 → r.status ≠ 403 → r.status ≠ 204 →
      r.parsed = some (.obj none) →
      get_bullet st wo r = .error .extractError) := by
  refine ⟨fun r h1 => ?_, fun r h1 h3 => ?_, fun r h1 h3 h2 => ?_,
    fun r t h1 h3 h2 hp => ?_, fun r h1 h3 h2 hp => ?_,
    fun r h1 h3 h2 hp => ?_⟩
  · simp [get_bullet, hv, h1]
  · simp [get_bullet, hv, h1, h3]
  · simp [get_bullet, hv, h1, h3, h2]
  · simp [get_bullet, hv, h1, h3, h2, hp]
  · rcases hp with hp | hp <;> simp [get_bullet, hv, h1, h3, h2, hp]
  · simp [get_bullet, hv, h1, h3, h2, hp]

/-- Witness for the amended C6 at a concrete cached state: a 401
response is fatal and a 200 response with a token returns it. -/
theorem get_bullet_status_mapping_witness :
    get_bullet ⟨false, "unknown", "unknown", "unknown", "10.0.0-88706e32"⟩
      ⟨true, true, true, true, none⟩ ⟨401, none⟩
      = .error .invalidGameWebToken ∧
    get_bullet ⟨false, "unknown", "unknown", "unknown", "10.0.0-88706e32"⟩
      ⟨true, true, true, true, none⟩ ⟨200, some (.obj (some "BULLET"))⟩
      = .ok "BULLET" :=
  ⟨(get_bullet_status_mapping
      ⟨false, "unknown", "unknown", "unknown", "10.0.0-88706e32"⟩
      ⟨true, true, true, true, none⟩ ("10.0.0-88706e32",
      ⟨false, "unknown", "unknown", "unknown", "10.0.0-88706e32"⟩)
      rfl).1 ⟨401, none⟩ rfl,
    (get_bullet_status_mapping
      ⟨false, "unknown", "unknown", "unknown", "10.0.0-88706e32"⟩
      ⟨true, true, true, true, none⟩ ("10.0.0-88706e32",
      ⟨false, "unknown", "unknown", "unknown", "10.0.0-88706e32"⟩)
      rfl).2.2.2.1 ⟨200, some (.obj (some "BULLET"))⟩ "BULLET"
      (by decide) (by decide) (by decide) rfl⟩

/-- C8 counterexample: on a response with a non-empty body that is not
JSON, the handler's attempt to pretty-print the error body re-raises
inside `json.loads`, so `call_f_api` reports the could-not-connect
message instead of the endpoint's error body the claim requires. -/
theorem call_f_api_nonjson_body_counterexample :
    call_f_api ⟨false, "2.27.0", "0.6.6", "https://api.imink.app/f",
        "unknown"⟩
      ⟨none, none, some ⟨500, true, none⟩⟩ "token" 1
      "https://api.imink.app/f" "user" none
      = .error (.couldNotConnect "https://api.imink.app/f") ∧
    FErrorReport.couldNotConnect "https://api.imink.app/f"
      ≠ .errorBody := by
  exact ⟨rfl, by decide⟩

/-- C8 amended: `call_f_api` terminates fatally on any transport
failure, non-JSON body, or response missing `f`, `request_id` or
`timestamp`, never returning a value in those cases; it reports the
endpoint's error body when a non-empty response body is present **and
parses as JSON**, the HTTP status code when a response with an empty
body is present, and otherwise (no response at all, or a non-empty body
that fails JSON parsing) a could-not-connect message naming the f
generation URL. -/
theorem call_f_api_error_reporting (st : VersionState) (o : FCallOracle)
    (tok : String) (step : Nat) (url uid : String) (cu : Option String)
    (p : String × VersionState)
    (hv : get_nsoapp_version st o.conf o.store = .ok p) :
    (o.outcome = none →
      call_f_api st o tok step url uid cu
        = .error (.couldNotConnect url)) ∧
    (∀ resp : FApiResp, o.outcome = some resp → resp.parsed = none →
      call_f_api st o tok step url uid cu
        = .error (if resp.text_nonempty then .couldNotConnect url
            else .httpStatus resp.status)) ∧
    (∀ (resp : FApiResp) (ff fr ft : Option String),
      o.outcome = some resp → resp.parsed = some ⟨ff, fr, ft⟩ →
      (ff = none ∨ fr = none ∨ ft = none) →
      call_f_api st o tok step url uid cu
        = .error (if resp.text_nonempty then .errorBody
            else .httpStatus resp.status)) ∧
    (∀ (resp : FApiResp) (f u t : String), o.outcome = some resp →
      resp.parsed = some ⟨some f, some u, some t⟩ →
      call_f_api st o tok step url uid cu = .ok ((f, u, t), p.2)) := by
  refine ⟨fun h => ?_, fun resp h hp => ?_,
    fun resp ff fr ft h hp hmiss => ?_, fun resp f u t h hp => ?_⟩
  · simp [call_f_api, hv, h]
  · simp [call_f_api, hv, h, hp]
    split <;> simp
  · rcases hmiss with hm | hm | hm <;> subst hm
    · cases fr <;> cases ft <;> cases htn : resp.text_nonempty <;>
        simp [call_f_api, hv, h, hp, htn]
    · cases ff <;> cases ft <;> cases htn : resp.text_nonempty <;>
        simp [call_f_api, hv, h, hp, htn]
    · cases ff <;> cases fr <;> cases htn : resp.text_nonempty <;>
        simp [call_f_api, hv, h, hp, htn]
  · simp [call_f_api, hv, h, hp]

/-- Witness for the amended C8: concrete transport failure and concrete
success. -/
theorem call_f_api_error_reporting_witness :
    call_f_api ⟨false, "2.27.0", "0.6.6", "https://api.imink.app/f",
        "unknown"⟩
      ⟨none, none, none⟩ "token" 1 "https://api.imink.app/f" "user" none
      = .error (.couldNotConnect "https://api.imink.app/f") ∧
    call_f_api ⟨false, "2.27.0", "0.6.6", "https://api.imink.app/f",
        "unknown"⟩
      ⟨none, none, some ⟨200, true, some ⟨some "F", some "U", some "T"⟩⟩⟩
      "token" 2 "https://api.imink.app/f" "user" (some "1234")
      = .ok (("F", "U", "T"),
        ⟨false, "2.27.0", "0.6.6", "https://api.imink.app/f", "unknown"⟩) :=
  ⟨(call_f_api_error_reporting
      ⟨false, "2.27.0", "0.6.6", "https://api.imink.app/f", "unknown"⟩
      ⟨none, none, none⟩ "token" 1 "https://api.imink.app/f" "user" none
      ("2.27.0", ⟨false, "2.27.0", "0.6.6", "https://api.imink.app/f",
        "unknown"⟩) rfl).1 rfl,
    (call_f_api_error_reporting
      ⟨false, "2.27.0", "0.6.6", "https://api.imink.app/f", "unknown"⟩
      ⟨none, none,
        some ⟨200, true, some ⟨some "F", some "U", some "T"⟩⟩⟩
      "token" 2 "https://api.imink.app/f" "user" (some "1234")
      ("2.27.0", ⟨false, "2.27.0", "0.6.6", "https://api.imink.app/f",
        "unknown"⟩) rfl).2.2.2 _ "F" "U" "T" rfl rfl⟩

/-- C1: refuted on the code.  In a run where the first `Account/Login`
attempt succeeds (the no-retry path), the `call_f_api(..., 2, ...)` of
line 373 — which sits inside the `except:` block — never runs: the
`Game/GetWebServiceToken` request is submitted carrying the triple
`(F1, U1, T1)` that the step-1 attestation call produced, and the trace
contains no step-2 attestation call at all. -/
theorem gtoken_no_retry_path_sends_step1_triple :
    get_gtoken st_fresh happy_net "https://api.imink.app/f" "sess"
      "0.6.6"
      = (.ok ("WST", "nick", "en-US", "US"),
         [.fapi 1 "F1" "U1" "T1", .coralPost "F1" "U1" "T1",
          .wsPost "F1" "U1" "T1"]) ∧
    GEvent.wsPost "F1" "U1" "T1" ∈
      (get_gtoken st_fresh happy_net "https://api.imink.app/f" "sess"
        "0.6.6").2 ∧
    ∀ e ∈ (get_gtoken st_fresh happy_net "https://api.imink.app/f"
      "sess" "0.6.6").2, e.fapiStep ≠ some 2 := by
  refine ⟨rfl, by decide, by decide⟩

/-- C2: refuted on the code.  When the first `Account/Login` response is
a credential rejection with no `result` key (e.g. a 9403 error body),
the local `access_token` was never bound, so the retry block's
`call_f_api(access_token, 1, ...)` raises `NameError` before any request
is made: the run exits fatally after a single `Account/Login` POST, with
no regenerated attestation and no resubmission — even though the retry
oracles in `rejected_net` would all have succeeded. -/
theorem gtoken_coral_rejection_never_retried :
    get_gtoken st_fresh rejected_net "https://api.imink.app/f" "sess"
      "0.6.6"
      = (.error .coralRetryFail,
         [.fapi 1 "F1" "U1" "T1", .coralPost "F1" "U1" "T1"]) ∧
    ((get_gtoken st_fresh rejected_net "https://api.imink.app/f" "sess"
      "0.6.6").2.countP GEvent.isCoralPost) = 1 ∧
    ∀ e ∈ (get_gtoken st_fresh rejected_net "https://api.imink.app/f"
      "sess" "0.6.6").2, e ≠ .fapi 1 "F2" "U2" "T2" := by
  refine ⟨rfl, by decide, by decide⟩

end Iksm
